import Mathlib

/-
Verification of the GLONASS L1 C/A system-parameter tables of gnss-sdr
(src/core/system_parameters/GLONASS_L1_CA.h), shallowly embedded in Lean 4.

C++ `int` constants are embedded as `Int`; the bit-position tables
(`std::vector<std::pair<int,int>>`, all entries positive literals) are
embedded as lists of `Nat` pairs; `double` literals whose exact decimal
value matters are embedded as `Rat`.
-/

namespace GlonassL1CA

/- ## Physical constants (the ones the claims are about) -/

/-- `const double GLONASS_FLATTENING = 1/29825784;` — in C++ both operands
are `int` literals, so the division is integer (truncating) division and the
quotient is converted to `double` afterwards.  We embed the integer division
step explicitly as `Int` division (which truncates toward zero on
nonnegative operands, matching C++), then cast to `Rat` for the `double`. -/
def GLONASS_FLATTENING_int_quotient : Int := 1 / 29825784

def GLONASS_FLATTENING : Rat := (GLONASS_FLATTENING_int_quotient : Rat)

/- ## Navigation message demodulation and decoding constants -/

/-- `#define GLONASS_CA_PREAMBLE {1, 1, 1, 1, 1, 0, 0, 0, 1, 1, 0, 1, 1, 1, 0, 1, 0, 1, 0, 0, 0, 0, 1, 0, 0, 1, 0, 1, 1, 0}` -/
def GLONASS_CA_PREAMBLE : List Int :=
  [1, 1, 1, 1, 1, 0, 0, 0, 1, 1, 0, 1, 1, 1, 0, 1, 0, 1, 0, 0, 0, 0, 1, 0, 0, 1, 0, 1, 1, 0]

def GLONASS_CA_PREAMBLE_LENGTH_BITS : Int := 30

def GLONASS_CA_PREAMBLE_LENGTH_SYMBOLS : Int := 300

/-- `const double GLONASS_CA_PREAMBLE_DURATION_S = 0.3;` — the decimal
literal embedded as an exact rational. -/
def GLONASS_CA_PREAMBLE_DURATION_S : Rat := 3 / 10

def GLONASS_CA_TELEMETRY_RATE_BITS_SECOND : Int := 50

def GLONASS_CA_TELEMETRY_SYMBOLS_PER_BIT : Int := 10

def GLONASS_CA_TELEMETRY_RATE_SYMBOLS_SECOND : Int :=
  GLONASS_CA_TELEMETRY_RATE_BITS_SECOND * GLONASS_CA_TELEMETRY_SYMBOLS_PER_BIT

def GLONASS_GNAV_WORD_LENGTH : Int := 4

def GLONASS_GNAV_FRAME_LENGTH : Int := 40

def GLONASS_GNAV_FRAME_BITS : Int := 1725

def GLONASS_GNAV_FRAME_SECONDS : Int := 30

def GLONASS_GNAV_FRAME_MS : Int := 30000

def GLONASS_GNAV_STRING_BITS : Int := 115

/- ## GLONASS GNAV navigation message field-position tables

Each `const std::vector<std::pair<int,int>>` of the header becomes a
`List (Nat × Nat)` of (start_bit, length_bits) pairs; all source entries
are positive integer literals.  The header declares `L_N` three times
(string 3, string 5, strings 7/9/11/13/15); Lean forbids redeclaration,
so the second and third occurrence carry a disambiguating suffix while
the `name` recorded in the assembled tables below stays the source name. -/

-- COMMON FIELDS
def STRING_ID : List (Nat × Nat) := [(2, 4)]
def KX : List (Nat × Nat) := [(78, 8)]

-- STRING 1
def P1 : List (Nat × Nat) := [(8, 2)]
def T_K : List (Nat × Nat) := [(10, 12)]
def X_N_DOT : List (Nat × Nat) := [(22, 24)]
def X_N_DOT_DOT : List (Nat × Nat) := [(46, 5)]
def X_N : List (Nat × Nat) := [(51, 27)]

-- STRING 2
def B_N : List (Nat × Nat) := [(6, 3)]
def P2 : List (Nat × Nat) := [(9, 1)]
def T_B : List (Nat × Nat) := [(10, 7)]
def Y_N_DOT : List (Nat × Nat) := [(22, 24)]
def Y_N_DOT_DOT : List (Nat × Nat) := [(46, 5)]
def Y_N : List (Nat × Nat) := [(51, 27)]

-- STRING 3
def P3 : List (Nat × Nat) := [(6, 1)]
def GAMMA_N : List (Nat × Nat) := [(7, 11)]
def P : List (Nat × Nat) := [(19, 2)]
def L_N : List (Nat × Nat) := [(21, 1)]
def Z_N_DOT : List (Nat × Nat) := [(22, 24)]
def Z_N_DOT_DOT : List (Nat × Nat) := [(46, 5)]
def Z_N : List (Nat × Nat) := [(51, 27)]

-- STRING 4
def TAU_N : List (Nat × Nat) := [(6, 22)]
def DELTA_TAU_N : List (Nat × Nat) := [(28, 5)]
def E_N : List (Nat × Nat) := [(33, 5)]
def P4 : List (Nat × Nat) := [(52, 1)]
def F_T : List (Nat × Nat) := [(53, 4)]
def N_T : List (Nat × Nat) := [(60, 11)]
def N : List (Nat × Nat) := [(71, 5)]
def M : List (Nat × Nat) := [(76, 2)]

-- STRING 5
def N_A : List (Nat × Nat) := [(6, 11)]
def TAU_C : List (Nat × Nat) := [(17, 32)]
def N_4 : List (Nat × Nat) := [(50, 5)]
def TAU_GPS : List (Nat × Nat) := [(55, 22)]
def L_N_string5 : List (Nat × Nat) := [(77, 1)]

-- STRING 6, 8, 10, 12, 14
def C_N : List (Nat × Nat) := [(6, 1)]
def M_N_A : List (Nat × Nat) := [(7, 2)]
def n_A : List (Nat × Nat) := [(9, 5)]
def TAU_N_A : List (Nat × Nat) := [(14, 10)]
def LAMBDA_N_A : List (Nat × Nat) := [(24, 21)]
def DELTA_I_N_A : List (Nat × Nat) := [(45, 18)]
def EPSILON_N_A : List (Nat × Nat) := [(63, 15)]

-- STRING 7, 9, 11, 13, 15
def OMEGA_N_A : List (Nat × Nat) := [(6, 16)]
def T_LAMBDA_N_A : List (Nat × Nat) := [(22, 21)]
def DELTA_T_N_A : List (Nat × Nat) := [(43, 22)]
def DELTA_T_DOT_N_A : List (Nat × Nat) := [(65, 7)]
def H_N_A : List (Nat × Nat) := [(72, 5)]
def L_N_string7_15 : List (Nat × Nat) := [(77, 1)]

/- ## Assembled per-string-class field tables -/

/-- A named bit-field entry: the declared vector's name together with one
of its (start_bit, length_bits) pairs. -/
structure FieldEntry where
  name : String
  start_bit : Nat
  length_bits : Nat
deriving DecidableEq

/-- Attach a source declaration's name to each of its pairs. -/
def tagged (nm : String) (v : List (Nat × Nat)) : List FieldEntry :=
  v.map fun p => ⟨nm, p.1, p.2⟩

/-- String 1 class: common fields plus the string-1 declarations. -/
def string1Table : List FieldEntry :=
  tagged ("STRING_ID") STRING_ID ++ tagged ("KX") KX ++
  tagged ("P1") P1 ++ tagged ("T_K") T_K ++ tagged ("X_N_DOT") X_N_DOT ++
  tagged ("X_N_DOT_DOT") X_N_DOT_DOT ++ tagged ("X_N") X_N

/-- String 2 class. -/
def string2Table : List FieldEntry :=
  tagged ("STRING_ID") STRING_ID ++ tagged ("KX") KX ++
  tagged ("B_N") B_N ++ tagged ("P2") P2 ++ tagged ("T_B") T_B ++
  tagged ("Y_N_DOT") Y_N_DOT ++ tagged ("Y_N_DOT_DOT") Y_N_DOT_DOT ++
  tagged ("Y_N") Y_N

/-- String 3 class. -/
def string3Table : List FieldEntry :=
  tagged ("STRING_ID") STRING_ID ++ tagged ("KX") KX ++
  tagged ("P3") P3 ++ tagged ("GAMMA_N") GAMMA_N ++ tagged ("P") P ++
  tagged ("L_N") L_N ++ tagged ("Z_N_DOT") Z_N_DOT ++
  tagged ("Z_N_DOT_DOT") Z_N_DOT_DOT ++ tagged ("Z_N") Z_N

/-- String 4 class. -/
def string4Table : List FieldEntry :=
  tagged ("STRING_ID") STRING_ID ++ tagged ("KX") KX ++
  tagged ("TAU_N") TAU_N ++ tagged ("DELTA_TAU_N") DELTA_TAU_N ++
  tagged ("E_N") E_N ++ tagged ("P4") P4 ++ tagged ("F_T") F_T ++
  tagged ("N_T") N_T ++ tagged ("N") N ++ tagged ("M") M

/-- String 5 class. -/
def string5Table : List FieldEntry :=
  tagged ("STRING_ID") STRING_ID ++ tagged ("KX") KX ++
  tagged ("N_A") N_A ++ tagged ("TAU_C") TAU_C ++ tagged ("N_4") N_4 ++
  tagged ("TAU_GPS") TAU_GPS ++ tagged ("L_N") L_N_string5

/-- Strings 6, 8, 10, 12, 14 class (even almanac strings). -/
def string6Table : List FieldEntry :=
  tagged ("STRING_ID") STRING_ID ++ tagged ("KX") KX ++
  tagged ("C_N") C_N ++ tagged ("M_N_A") M_N_A ++ tagged ("n_A") n_A ++
  tagged ("TAU_N_A") TAU_N_A ++ tagged ("LAMBDA_N_A") LAMBDA_N_A ++
  tagged ("DELTA_I_N_A") DELTA_I_N_A ++ tagged ("EPSILON_N_A") EPSILON_N_A

/-- Strings 7, 9, 11, 13, 15 class (odd almanac strings). -/
def string7Table : List FieldEntry :=
  tagged ("STRING_ID") STRING_ID ++ tagged ("KX") KX ++
  tagged ("OMEGA_N_A") OMEGA_N_A ++ tagged ("T_LAMBDA_N_A") T_LAMBDA_N_A ++
  tagged ("DELTA_T_N_A") DELTA_T_N_A ++
  tagged ("DELTA_T_DOT_N_A") DELTA_T_DOT_N_A ++ tagged ("H_N_A") H_N_A ++
  tagged ("L_N") L_N_string7_15

/-- The seven string-ID classes of the header, in order
(1; 2; 3; 4; 5; {6,8,10,12,14}; {7,9,11,13,15}). -/
def allClassTables : List (List FieldEntry) :=
  [string1Table, string2Table, string3Table, string4Table, string5Table,
   string6Table, string7Table]

/-- Every field-position declaration of the header, in source order,
including all three `L_N` declarations. -/
def allFieldDecls : List FieldEntry :=
  tagged ("STRING_ID") STRING_ID ++ tagged ("KX") KX ++
  tagged ("P1") P1 ++ tagged ("T_K") T_K ++ tagged ("X_N_DOT") X_N_DOT ++
  tagged ("X_N_DOT_DOT") X_N_DOT_DOT ++ tagged ("X_N") X_N ++
  tagged ("B_N") B_N ++ tagged ("P2") P2 ++ tagged ("T_B") T_B ++
  tagged ("Y_N_DOT") Y_N_DOT ++ tagged ("Y_N_DOT_DOT") Y_N_DOT_DOT ++
  tagged ("Y_N") Y_N ++
  tagged ("P3") P3 ++ tagged ("GAMMA_N") GAMMA_N ++ tagged ("P") P ++
  tagged ("L_N") L_N ++ tagged ("Z_N_DOT") Z_N_DOT ++
  tagged ("Z_N_DOT_DOT") Z_N_DOT_DOT ++ tagged ("Z_N") Z_N ++
  tagged ("TAU_N") TAU_N ++ tagged ("DELTA_TAU_N") DELTA_TAU_N ++
  tagged ("E_N") E_N ++ tagged ("P4") P4 ++ tagged ("F_T") F_T ++
  tagged ("N_T") N_T ++ tagged ("N") N ++ tagged ("M") M ++
  tagged ("N_A") N_A ++ tagged ("TAU_C") TAU_C ++ tagged ("N_4") N_4 ++
  tagged ("TAU_GPS") TAU_GPS ++ tagged ("L_N") L_N_string5 ++
  tagged ("C_N") C_N ++ tagged ("M_N_A") M_N_A ++ tagged ("n_A") n_A ++
  tagged ("TAU_N_A") TAU_N_A ++ tagged ("LAMBDA_N_A") LAMBDA_N_A ++
  tagged ("DELTA_I_N_A") DELTA_I_N_A ++
  tagged ("EPSILON_N_A") EPSILON_N_A ++
  tagged ("OMEGA_N_A") OMEGA_N_A ++
  tagged ("T_LAMBDA_N_A") T_LAMBDA_N_A ++
  tagged ("DELTA_T_N_A") DELTA_T_N_A ++
  tagged ("DELTA_T_DOT_N_A") DELTA_T_DOT_N_A ++
  tagged ("H_N_A") H_N_A ++ tagged ("L_N") L_N_string7_15

/- ## Helper predicates on field entries -/

/-- Last bit position (inclusive) covered by a field, 1-based. -/
def endBit (f : FieldEntry) : Nat := f.start_bit + f.length_bits - 1

/-- Two fields' bit ranges overlap (both source ranges are nonempty:
every `length_bits` in the table is positive). -/
def overlapsB (a b : FieldEntry) : Bool :=
  decide (b.start_bit ≤ endBit a) && decide (a.start_bit ≤ endBit b)

/-- All bit ranges in a table are pairwise disjoint. -/
def pairwiseDisjointB : List FieldEntry → Bool
  | [] => true
  | f :: rest => rest.all (fun g => !overlapsB f g) && pairwiseDisjointB rest

/-- Every field in a table starts at a 1-based position and ends at or
before the given bit. -/
def withinBitsB (bound : Nat) (t : List FieldEntry) : Bool :=
  t.all fun f =>
    decide (1 ≤ f.start_bit) && decide (1 ≤ f.length_bits) &&
    decide (endBit f ≤ bound)

/-- The table contains a field of the given name. -/
def hasField (t : List FieldEntry) (nm : String) : Bool :=
  t.any fun f => f.name == nm

/-- Every pair of equally-named entries in the list carries the same
(start_bit, length_bits). -/
def nameDeterminesRangeB (l : List FieldEntry) : Bool :=
  l.all fun a => l.all fun b =>
    !(a.name == b.name) ||
    (a.start_bit == b.start_bit && a.length_bits == b.length_bits)

end GlonassL1CA

namespace GlonassL1CA

/- ## Bit insertion/extraction for the round-trip property -/

/-- Modelled from the spec: the String Decoder's field extraction ("for
each entry extracts the bit range", §4.3) is not under src/; we model a
string's data bits as a natural number whose 1-based bit position `i` is
binary digit `i - 1`, and extraction of an unsigned field of `len` bits
starting at `start` as the value of that bit range. -/
def extractField (data start len : Nat) : Nat :=
  data / 2 ^ (start - 1) % 2 ^ len

/-- Modelled from the spec: "encoding a known physical value into its bit
range" (§8, round-trip property) — replace bits
`start .. start + len - 1` of the string with the value, leaving the
other bits unchanged. -/
def insertField (data start len v : Nat) : Nat :=
  data % 2 ^ (start - 1) + v % 2 ^ len * 2 ^ (start - 1) +
    data / 2 ^ (start - 1 + len) * 2 ^ (start - 1 + len)

/-- Extracting a bit range immediately after inserting a value that fits
in it returns that value, whatever the surrounding bits are. -/
theorem extract_insertField (data start len v : Nat) (hv : v < 2 ^ len) :
    extractField (insertField data start len v) start len = v := by
  have h2s : 0 < 2 ^ (start - 1) := pow_pos (by norm_num) _
  unfold extractField insertField
  rw [Nat.mod_eq_of_lt hv]
  have e1 : data % 2 ^ (start - 1) + v * 2 ^ (start - 1) +
      data / 2 ^ (start - 1 + len) * 2 ^ (start - 1 + len) =
      data % 2 ^ (start - 1) +
        (v + data / 2 ^ (start - 1 + len) * 2 ^ len) * 2 ^ (start - 1) := by
    rw [pow_add]; ring
  rw [e1, Nat.add_mul_div_right _ _ h2s, Nat.div_eq_of_lt (Nat.mod_lt _ h2s),
    Nat.zero_add, Nat.add_mul_mod_self_right, Nat.mod_eq_of_lt hv]

end GlonassL1CA

namespace GlonassL1CA

/- ## Claim theorems -/

/-- C1: for every string-ID class (1; 2; 3; 4; 5; {6,8,10,12,14};
{7,9,11,13,15}) in the static field table, the bit ranges
[start_bit, start_bit + length_bits - 1] of the fields of that class are
pairwise disjoint, every range ends at or before bit 85, and start/length
are 1-based positive offsets that fit inside the full 115-bit string. -/
theorem C1_class_tables_disjoint_within_85 :
    (allClassTables.all fun t => pairwiseDisjointB t && withinBitsB 85 t) = true ∧
    (85 : Int) ≤ GLONASS_GNAV_STRING_BITS := by
  constructor
  · decide
  · decide

/-- C2 counterexample: the string-5 class does not carry all four
TimeState fields — `N_T` has no entry in the string-5 table (it belongs
to string 4), so the claimed conjunction fails. -/
theorem C2_counterexample :
    ¬ (hasField string5Table ("N_4") = true ∧ hasField string5Table ("N_T") = true ∧
       hasField string5Table ("TAU_C") = true ∧ hasField string5Table ("TAU_GPS") = true) := by
  decide

/-- C2 (amended): string 5 carries `N_4`, `TAU_C` and `TAU_GPS`, plus the
almanac day `N_A`, but not `N_T`: `N_T`'s only entry is in the string-4
class, so a TimeUpdate containing `N_T` cannot be produced from a decoded
string 5 alone. -/
theorem C2_amended_string5_fields :
    hasField string5Table ("N_4") = true ∧
    hasField string5Table ("TAU_C") = true ∧
    hasField string5Table ("TAU_GPS") = true ∧
    hasField string5Table ("N_A") = true ∧
    hasField string5Table ("N_T") = false ∧
    hasField string4Table ("N_T") = true := by
  decide

/-- The common check-bit field entry `KX = {78, 8}`. -/
def kxEntry : FieldEntry := ⟨"KX", 78, 8⟩

/-- C3: every string class reserves exactly 8 check bits in the common
field KX occupying bits 78..85, and in every class no other field's bit
range overlaps the KX range. -/
theorem C3_kx_disjoint_from_payload :
    KX = [(78, 8)] ∧ endBit kxEntry = 85 ∧
    (allClassTables.all fun t => hasField t ("KX")) = true ∧
    (allClassTables.all fun t =>
      t.all fun f => f.name == "KX" || !overlapsB f kxEntry) = true := by
  refine ⟨rfl, rfl, by decide, by decide⟩

/-- The common dispatch field entry `STRING_ID = {2, 4}`. -/
def stringIdEntry : FieldEntry := ⟨"STRING_ID", 2, 4⟩

/-- C4: the STRING_ID dispatch field is common to all string classes at
one fixed position, offset 2 and length 4 bits, and 4 bits suffice for
every recognized string type 1..15. -/
theorem C4_string_id_common_dispatch :
    STRING_ID = [(2, 4)] ∧
    (allClassTables.all fun t => t.any fun f => f == stringIdEntry) = true ∧
    (15 : Nat) < 2 ^ 4 := by
  refine ⟨rfl, by decide, by decide⟩

/-- C5: the framing size constants agree with the spec's unit sizes:
115 string bits = 30 time-mark + 85 data bits, the preamble (time mark)
is 30 bits, and one frame is 15 strings of 115 bits = 1725 bits. -/
theorem C5_framing_sizes :
    GLONASS_GNAV_STRING_BITS = 30 + 85 ∧
    GLONASS_CA_PREAMBLE_LENGTH_BITS = 30 ∧
    GLONASS_GNAV_FRAME_BITS = 15 * GLONASS_GNAV_STRING_BITS := by
  refine ⟨by decide, by decide, by decide⟩

/-- C6 counterexample: transmitting the 1725 frame bits at the declared
50 bits/s does not take the declared 30 s — 1725 / 50 = 34.5 s. -/
theorem C6_counterexample :
    ¬ ((GLONASS_GNAV_FRAME_BITS : Rat) / (GLONASS_CA_TELEMETRY_RATE_BITS_SECOND : Rat) =
       (GLONASS_GNAV_FRAME_SECONDS : Rat)) := by
  norm_num [GLONASS_GNAV_FRAME_BITS, GLONASS_CA_TELEMETRY_RATE_BITS_SECOND,
    GLONASS_GNAV_FRAME_SECONDS]

/-- C6 (amended): `GLONASS_GNAV_FRAME_MS = 1000 × GLONASS_GNAV_FRAME_SECONDS`
holds, but the frame size and bit rate are not related to the duration by
duration = bits / rate: 1725 bits at 50 bits/s is 34.5 s, not the declared
30 s. -/
theorem C6_amended_frame_timing :
    GLONASS_GNAV_FRAME_MS = 1000 * GLONASS_GNAV_FRAME_SECONDS ∧
    (GLONASS_GNAV_FRAME_BITS : Rat) / (GLONASS_CA_TELEMETRY_RATE_BITS_SECOND : Rat) =
      69 / 2 ∧
    ((69 : Rat) / 2) ≠ (GLONASS_GNAV_FRAME_SECONDS : Rat) := by
  refine ⟨by decide, ?_, ?_⟩ <;>
    norm_num [GLONASS_GNAV_FRAME_BITS, GLONASS_CA_TELEMETRY_RATE_BITS_SECOND,
      GLONASS_GNAV_FRAME_SECONDS]

/-- C7 counterexample: the declared preamble duration is not
LENGTH_SYMBOLS / RATE_SYMBOLS_SECOND — that quotient is 300 / 500 = 0.6 s
while `GLONASS_CA_PREAMBLE_DURATION_S` is 0.3. -/
theorem C7_counterexample :
    ¬ (GLONASS_CA_PREAMBLE_DURATION_S =
       (GLONASS_CA_PREAMBLE_LENGTH_SYMBOLS : Rat) /
         (GLONASS_CA_TELEMETRY_RATE_SYMBOLS_SECOND : Rat)) := by
  norm_num [GLONASS_CA_PREAMBLE_DURATION_S, GLONASS_CA_PREAMBLE_LENGTH_SYMBOLS,
    GLONASS_CA_TELEMETRY_RATE_SYMBOLS_SECOND, GLONASS_CA_TELEMETRY_RATE_BITS_SECOND,
    GLONASS_CA_TELEMETRY_SYMBOLS_PER_BIT]

/-- C7 (amended): the preamble lists exactly 30 values, each 0 or 1, and
LENGTH_SYMBOLS = LENGTH_BITS × SYMBOLS_PER_BIT = 300; but
`GLONASS_CA_PREAMBLE_DURATION_S` is 0.3 s, which is not
LENGTH_SYMBOLS ÷ RATE_SYMBOLS_SECOND = 300 / 500 = 0.6 s. -/
theorem C7_amended_preamble_constants :
    GLONASS_CA_PREAMBLE.length = 30 ∧
    (GLONASS_CA_PREAMBLE.all fun b => b == 0 || b == 1) = true ∧
    GLONASS_CA_PREAMBLE_LENGTH_SYMBOLS =
      GLONASS_CA_PREAMBLE_LENGTH_BITS * GLONASS_CA_TELEMETRY_SYMBOLS_PER_BIT ∧
    GLONASS_CA_PREAMBLE_DURATION_S = 3 / 10 ∧
    (GLONASS_CA_PREAMBLE_LENGTH_SYMBOLS : Rat) /
        (GLONASS_CA_TELEMETRY_RATE_SYMBOLS_SECOND : Rat) = 3 / 5 ∧
    ((3 : Rat) / 10) ≠ 3 / 5 := by
  refine ⟨by decide, by decide, by decide, by norm_num [GLONASS_CA_PREAMBLE_DURATION_S], ?_, by norm_num⟩
  norm_num [GLONASS_CA_PREAMBLE_LENGTH_SYMBOLS, GLONASS_CA_TELEMETRY_RATE_SYMBOLS_SECOND,
    GLONASS_CA_TELEMETRY_RATE_BITS_SECOND, GLONASS_CA_TELEMETRY_SYMBOLS_PER_BIT]

/-- C8: for every (string-ID, field) pair in the static table, inserting
any unsigned value that fits in the field's length_bits into its bit
range, then extracting that range back, reproduces the value exactly. -/
theorem C8_field_roundtrip (f : FieldEntry) (hf : f ∈ allFieldDecls) (data v : Nat)
    (hv : v < 2 ^ f.length_bits) :
    extractField (insertField data f.start_bit f.length_bits v)
      f.start_bit f.length_bits = v :=
  extract_insertField data f.start_bit f.length_bits v hv

/-- C8 witness: the round trip evaluated at the string-1 field
`P1 = {8, 2}`, surrounding bits 12345, field value 3. -/
theorem C8_field_roundtrip_witness :
    extractField (insertField 12345 8 2 3) 8 2 = 3 :=
  C8_field_roundtrip ⟨"P1", 8, 2⟩ (by decide) 12345 3 (by decide)

/-- C9 counterexample: field names do not uniquely identify one bit
range — the declaration list contains `L_N` with range {21, 1} (string 3)
and `L_N` with range {77, 1} (string 5), so `nameDeterminesRangeB` fails
on the full table. -/
theorem C9_counterexample : nameDeterminesRangeB allFieldDecls = false := by
  decide

/-- C9 (amended): `L_N` is the only field name declared with differing
bit ranges — it is declared three times, with {21, 1} for string 3 and
{77, 1} for string 5 and for strings 7/9/11/13/15, so a decoder keying
fields by name alone cannot distinguish the string-3 L_N position from
the string-5/odd-almanac one; every other field name determines a unique
(start_bit, length_bits). -/
theorem C9_amended_only_L_N_ambiguous :
    (allFieldDecls.filter fun f => f.name == "L_N") =
      [⟨"L_N", 21, 1⟩, ⟨"L_N", 77, 1⟩, ⟨"L_N", 77, 1⟩] ∧
    nameDeterminesRangeB (allFieldDecls.filter fun f => !(f.name == "L_N")) = true := by
  refine ⟨by decide, by decide⟩

/-- C10: `GLONASS_FLATTENING`, written `1/29825784` with both operands
integer literals, truncates to 0 in integer division before conversion to
double, so the stored constant is exactly 0. -/
theorem C10_flattening_is_zero :
    GLONASS_FLATTENING_int_quotient = 0 ∧ GLONASS_FLATTENING = 0 := by
  refine ⟨by decide, ?_⟩
  norm_num [GLONASS_FLATTENING, GLONASS_FLATTENING_int_quotient]

end GlonassL1CA
